import Mathlib

/-!
Verification development for the 3d-map repository
(`src/app/Components/CesiumComponent.tsx`).

The component is a thin orchestration layer over an external 3D-globe
rendering engine (Cesium).  We shallowly embed the component's own logic:

* camera heights, coordinates and style values are real numbers (the source
  operates on JavaScript numbers; we use the idealised reals);
* a `Cartesian3` engine position is modelled in cartographic coordinates
  (longitude, latitude in radians, height in metres) — the ellipsoid map
  between ECEF cartesians and cartographics is a bijection, and the source
  only ever observes a position through `Cartographic.fromCartesian`;
* engine and network effects (`fetch`, `clampToHeightMostDetailed`) are
  oracle parameters: the embedding is parametrised by their outcome, and
  theorems quantify over those outcomes;
* the `fetch` call itself is instrumented: `fetchOverturePlaces` returns,
  beside its result, a `Bool` recording whether control reached the
  `await fetch(apiUrl)` statement;
* `lodash.debounce` and the teardown `cancel()` are modelled by an explicit
  timed state machine (`debStep`) over natural-number millisecond times.

Styling fields that no property mentions (colors, label style enum,
origin enums, `arcType`, the Ion token) are omitted from the records;
`disableDepthTestDistance: Number.POSITIVE_INFINITY` is recorded as the
Boolean field `disableDepthTestDistanceInf`.
-/

namespace ThreeDMap

noncomputable section

/-- Model of `CesiumJs.Math.toRadians`. -/
def toRadians (d : ℝ) : ℝ := d * Real.pi / 180

/-- Model of `CesiumJs.Math.toDegrees`. -/
def toDegrees (r : ℝ) : ℝ := r * 180 / Real.pi

/-- An engine position, in cartographic form (see the file comment):
longitude and latitude in radians, height in metres above the ellipsoid. -/
structure Cartesian3 where
  lon : ℝ
  lat : ℝ
  height : ℝ

instance : Inhabited Cartesian3 := ⟨⟨0, 0, 0⟩⟩

/-- Model of `CesiumJs.Cartesian3.fromDegrees(longitude, latitude)` — height defaults
to `0`. -/
def Cartesian3.fromDegrees (longitude latitude : ℝ) : Cartesian3 :=
  ⟨toRadians longitude, toRadians latitude, 0⟩

/-- Model of `CesiumJs.Cartesian3.fromRadians(longitude, latitude, height)`. -/
def Cartesian3.fromRadians (longitude latitude height : ℝ) : Cartesian3 :=
  ⟨longitude, latitude, height⟩

/-- A cartographic position (`CesiumJs.Cartographic`). -/
structure Cartographic where
  lon : ℝ
  lat : ℝ
  height : ℝ

/-- Model of `CesiumJs.Cartographic.fromCartesian` (on our cartographic model of
`Cartesian3` this is the identity on the coordinate data). -/
def Cartographic.fromCartesian (c : Cartesian3) : Cartographic :=
  ⟨c.lon, c.lat, c.height⟩

/-- The camera's view rectangle (`camera.computeViewRectangle()` result),
in radians. -/
structure ViewRectangle where
  west : ℝ
  south : ℝ
  east : ℝ
  north : ℝ

/-- The degree-valued bounding box built by `getCurrentBoundingBox`. -/
structure BoundingBox where
  west : ℝ
  south : ℝ
  east : ℝ
  north : ℝ

/-- Model of `place.geometry` of a GeoJSON place feature: `coordinates = [lon, lat]`. -/
structure PlaceGeometry where
  coordinates : ℝ × ℝ

/-- Model of `place.properties.names`. -/
structure PlaceNames where
  primary : String

/-- Model of `place.properties`. -/
structure PlaceProperties where
  names : PlaceNames

/-- One GeoJSON place feature as consumed by the component. -/
structure Place where
  geometry : PlaceGeometry
  properties : PlaceProperties

instance : Inhabited Place := ⟨⟨⟨(0, 0)⟩, ⟨⟨""⟩⟩⟩⟩

/-- Model of `new CesiumJs.DistanceDisplayCondition(near, far)`. -/
structure DistanceDisplayCondition where
  near : ℝ
  far : ℝ

/-- The `label` sub-object of an added entity. -/
structure LabelGraphics where
  text : String
  font : String
  outlineWidth : ℝ
  pixelOffset : ℝ × ℝ
  distanceDisplayCondition : DistanceDisplayCondition
  disableDepthTestDistanceInf : Bool

/-- The `point` sub-object of an added entity. -/
structure PointGraphics where
  pixelSize : ℝ
  outlineWidth : ℝ
  distanceDisplayCondition : DistanceDisplayCondition
  disableDepthTestDistanceInf : Bool

/-- The `polyline` sub-object of an added entity. -/
structure PolylineGraphics where
  positions : List Cartesian3
  width : ℝ
  distanceDisplayCondition : DistanceDisplayCondition

/-- One entity added by `addPlaceLabels` (every added entity carries all
three sub-objects). -/
structure Entity where
  position : Cartesian3
  label : LabelGraphics
  point : PointGraphics
  polyline : PolylineGraphics

instance : Inhabited Entity :=
  ⟨⟨default, ⟨"", "", 0, (0, 0), ⟨0, 0⟩, false⟩, ⟨0, 0, ⟨0, 0⟩, false⟩,
    ⟨[], 0, ⟨0, 0⟩⟩⟩⟩

/-- The observable state of the Cesium viewer instance held in
`cesiumViewer.current`: the camera's cartographic height
(`ellipsoid.cartesianToCartographic(camera.position).height`), the camera's
view rectangle (`none` when `computeViewRectangle()` returns `undefined`),
the entity collection, and the two configuration values the bootstrapper
writes. -/
structure ViewerState where
  cameraHeight : ℝ
  viewRect : Option ViewRectangle
  entities : List Entity
  resolutionScale : ℝ
  globeShow : Bool

/-- The component state around the viewer ref: whether
`cesiumContainerRef.current` is non-null, the viewer ref itself, and the
number of listeners registered on `camera.moveEnd`. -/
structure CompState where
  container : Bool
  viewer : Option ViewerState
  moveEndListeners : ℕ

/-- The zoom level computed by `isZoomAbove15`:
`Math.floor(19 - Math.log2(height / 1000))`. -/
def zoomLevel (height : ℝ) : ℤ :=
  ⌊(19 : ℝ) - Real.logb 2 (height / 1000)⌋

/-- Model of `isZoomAbove15`: `false` when the viewer ref is null, otherwise
`zoomLevel > 15` at the camera's cartographic height. -/
def isZoomAbove15 (viewer : Option ViewerState) : Bool :=
  match viewer with
  | some v => decide (15 < zoomLevel v.cameraHeight)
  | none => false

/-- Model of `getCurrentBoundingBox`: converts the camera's view rectangle to
degrees; `none` when the viewer ref is null or the engine cannot compute a
view rectangle. -/
def getCurrentBoundingBox (viewer : Option ViewerState) : Option BoundingBox :=
  match viewer with
  | some v =>
    match v.viewRect with
    | some rectangle =>
      some ⟨toDegrees rectangle.west, toDegrees rectangle.south,
            toDegrees rectangle.east, toDegrees rectangle.north⟩
    | none => none
  | none => none

/-- Model of `fetchOverturePlaces`, instrumented: the second component records
whether control reached the `await fetch(apiUrl)` statement.  The network
outcome (`response.json().features`, or a thrown network/parse error) is the
oracle parameter `network`; on error the catch block returns `[]`. -/
def fetchOverturePlaces (viewer : Option ViewerState)
    (network : Except Unit (List Place)) : List Place × Bool :=
  if !isZoomAbove15 viewer then ([], false)
  else
    match getCurrentBoundingBox viewer with
    | none => ([], false)
    | some _bbox =>
      match network with
      | .ok data => (data, true)
      | .error _ => ([], true)

/-- The entity added for one place inside `addPlaceLabels`'s `forEach`
body: the entity `position` is `labelPosition` (the label anchor, 20 metres
above the clamped height), the `label` shows `properties.names.primary`,
and the `polyline` runs from the clamped position to `labelPosition`. -/
def placeEntity (place : Place) (clampedPosition : Cartesian3) : Entity :=
  let longitude := place.geometry.coordinates.1
  let latitude := place.geometry.coordinates.2
  let heightOffset : ℝ := 20
  let labelPosition := Cartesian3.fromRadians
    (toRadians longitude) (toRadians latitude)
    ((Cartographic.fromCartesian clampedPosition).height + heightOffset)
  { position := labelPosition
    label :=
      { text := place.properties.names.primary
        font := "7px sans-serif"
        outlineWidth := 1
        pixelOffset := (0, -10)
        distanceDisplayCondition := ⟨0, 6000⟩
        disableDepthTestDistanceInf := true }
    point :=
      { pixelSize := 6
        outlineWidth := 2
        distanceDisplayCondition := ⟨0, 6000⟩
        disableDepthTestDistanceInf := true }
    polyline :=
      { positions := [clampedPosition, labelPosition]
        width := 0.2
        distanceDisplayCondition := ⟨0, 1000⟩ } }

/-- Model of `addPlaceLabels(places)`: no-op when the viewer ref is null; otherwise
`entities.removeAll()`, then one batched
`scene.clampToHeightMostDetailed(cartesians)` call — its outcome is the
oracle parameter `clamp` — and on success one `entities.add` per place in
input order (`clampedCartesians[index]`); on failure the catch block only
logs, leaving the cleared collection. -/
def addPlaceLabels (viewer : Option ViewerState)
    (clamp : List Cartesian3 → Except Unit (List Cartesian3))
    (places : List Place) : Option ViewerState :=
  match viewer with
  | none => none
  | some v =>
    let cleared : ViewerState := { v with entities := [] }
    let cartesians := places.map fun place =>
      Cartesian3.fromDegrees place.geometry.coordinates.1
        place.geometry.coordinates.2
    match clamp cartesians with
    | .error _ => some cleared
    | .ok clampedCartesians =>
      some { cleared with
        entities := (List.range places.length).map fun index =>
          placeEntity (places.getD index default)
            (clampedCartesians.getD index default) }

/-- Model of `updatePlaces`, instrumented like `fetchOverturePlaces`: the second
component records whether a network fetch was issued.  When the zoom check
passes, fetch then render; otherwise clear all entities if the viewer ref
is non-null. -/
def updatePlaces (viewer : Option ViewerState)
    (network : Except Unit (List Place))
    (clamp : List Cartesian3 → Except Unit (List Cartesian3)) :
    Option ViewerState × Bool :=
  if isZoomAbove15 viewer then
    let fetched := fetchOverturePlaces viewer network
    (addPlaceLabels viewer clamp fetched.1, fetched.2)
  else
    match viewer with
    | some v => (some { v with entities := [] }, false)
    | none => (none, false)

/-- The viewer bootstrapper (`initializeCesium` in the source): guarded by
`cesiumContainerRef.current && !cesiumViewer.current`.  When it runs, it
stores the freshly constructed engine instance (the oracle parameter
`fresh`), sets `resolutionScale = 4.0` and `scene.globe.show = false`, and
registers `debouncedUpdatePlaces` on `camera.moveEnd`.  The tileset load
and the initial refresh are asynchronous effects outside this state. -/
def setupCesium (cs : CompState) (fresh : ViewerState) : CompState :=
  if cs.container && cs.viewer.isNone then
    { cs with
      viewer := some { fresh with resolutionScale := 4, globeShow := false }
      moveEndListeners := cs.moveEndListeners + 1 }
  else cs

/-! #### Concrete sample states, for witnesses and counterexamples -/

/-- A concrete view rectangle. -/
def rect0 : ViewRectangle := ⟨0, 0, 1, 1⟩

/-- A concrete place feature: `coordinates = [10, 20]`, primary name
`"X"`. -/
def samplePlace : Place := ⟨⟨(10, 20)⟩, ⟨⟨"X"⟩⟩⟩

/-- A concrete clamped position returned by the clamping oracle. -/
def sampleClamped : Cartesian3 := ⟨0.1, 0.2, 5⟩

/-- A viewer at camera height 1000 m (zoom level 19, fetch-eligible) with a
view rectangle and an empty entity collection. -/
def viewerNear : ViewerState := ⟨1000, some rect0, [], 4, false⟩

/-- A fetch-eligible viewer whose camera has no computable view rectangle
and whose scene holds one marker from a previous cycle. -/
def viewerNoRect : ViewerState := ⟨1000, none, [default], 4, false⟩

/-- A viewer at camera height 16000 m (zoom level 15, not
fetch-eligible). -/
def viewerFar : ViewerState := ⟨16000, some rect0, [default], 4, false⟩

/-- The renderer output on `viewerNear` for the single feature
`samplePlace` when the clamping oracle returns `sampleClamped`. -/
def c3Result : Option ViewerState :=
  addPlaceLabels (some viewerNear) (fun _ => .ok [sampleClamped])
    [samplePlace]

end

/-! ### The debounce timer (`lodash.debounce(updatePlaces, 300)`)

A trailing-edge debounce with a cancel operation, as a timed state machine
over millisecond timestamps.  `DebAction.ev t` is a trigger (a
`camera.moveEnd` event, or the initial call) at time `t`; `DebAction.cancel
t` is `debouncedUpdatePlaces.cancel()` — the `useEffect` cleanup — at time
`t`.  `pending` holds the time at which the scheduled execution will fire.
Before handling an action at time `t`, a pending execution whose scheduled
time has already been reached fires (`debFlush`); a trigger then
(re)schedules the execution for `t + delay`, and a cancel drops the pending
execution.  `debFires` closes the run by letting a still-pending,
never-cancelled execution fire. -/

/-- An input to the debounced function: a trigger or a cancellation, with
its millisecond timestamp. -/
inductive DebAction where
  | ev : ℕ → DebAction
  | cancel : ℕ → DebAction

/-- The timestamp of an action. -/
def DebAction.time : DebAction → ℕ
  | .ev t => t
  | .cancel t => t

/-- Debounce-machine state: the scheduled fire time, if any, and the times
at which the debounced function has executed, in order. -/
structure DebState where
  pending : Option ℕ
  fires : List ℕ

/-- Let a pending execution fire if its scheduled time is at or before
`t`. -/
def debFlush (s : DebState) (t : ℕ) : DebState :=
  match s.pending with
  | some f => if f ≤ t then ⟨none, s.fires ++ [f]⟩ else s
  | none => s

/-- One debounce-machine step. -/
def debStep (delay : ℕ) (s : DebState) : DebAction → DebState
  | .ev t => ⟨some (t + delay), (debFlush s t).fires⟩
  | .cancel t => ⟨none, (debFlush s t).fires⟩

/-- Run the debounce machine from the idle state. -/
def debRun (delay : ℕ) (acts : List DebAction) : DebState :=
  acts.foldl (debStep delay) ⟨none, []⟩

/-- All execution times produced by a run: a still-pending, never-cancelled
execution eventually fires. -/
def debFires (delay : ℕ) (acts : List DebAction) : List ℕ :=
  let s := debRun delay acts
  s.fires ++ s.pending.toList

/-! ### Zoom-level arithmetic -/

lemma logb_two_two_pow (k : ℕ) : Real.logb 2 ((2 : ℝ) ^ k) = k := by
  rw [Real.logb_pow, Real.logb_self_eq_one (by norm_num), mul_one]

lemma zoomLevel_1000 : zoomLevel 1000 = 19 := by
  have h1 : (1000 : ℝ) / 1000 = 1 := by norm_num
  rw [zoomLevel, h1, Real.logb_one]
  norm_num

lemma zoomLevel_1000000 : zoomLevel 1000000 = 9 := by
  have h1 : (1000000 : ℝ) / 1000 = 1000 := by norm_num
  have hb : (1 : ℝ) < 2 := by norm_num
  have hup : Real.logb 2 1000 ≤ 10 := by
    have h2 : Real.logb 2 1000 ≤ Real.logb 2 1024 :=
      Real.logb_le_logb_of_le hb (by norm_num) (by norm_num)
    have h3 : (1024 : ℝ) = (2 : ℝ) ^ (10 : ℕ) := by norm_num
    rw [h3, logb_two_two_pow] at h2
    exact_mod_cast h2
  have hlo : (9 : ℝ) < Real.logb 2 1000 := by
    have h2 : Real.logb 2 512 < Real.logb 2 1000 :=
      Real.logb_lt_logb hb (by norm_num) (by norm_num)
    have h3 : (512 : ℝ) = (2 : ℝ) ^ (9 : ℕ) := by norm_num
    rw [h3, logb_two_two_pow] at h2
    exact_mod_cast h2
  rw [zoomLevel, h1, Int.floor_eq_iff]
  constructor
  · push_cast
    linarith
  · push_cast
    linarith

lemma zoomLevel_16000 : zoomLevel 16000 = 15 := by
  have h1 : (16000 : ℝ) / 1000 = (2 : ℝ) ^ (4 : ℕ) := by norm_num
  rw [zoomLevel, h1, logb_two_two_pow]
  norm_num

/-- C2: for every camera height `h`, the zoom level is
`⌊19 - log₂(h / 1000)⌋`, the camera is fetch-eligible exactly when that
level is strictly greater than 15, and in particular `h = 1000` gives level
19 and `h = 1000000` gives level 9. -/
theorem zoom_level_formula_and_threshold :
    (∀ height : ℝ, zoomLevel height = ⌊(19 : ℝ) - Real.logb 2 (height / 1000)⌋) ∧
    (∀ v : ViewerState,
      isZoomAbove15 (some v) = true ↔ 15 < zoomLevel v.cameraHeight) ∧
    zoomLevel 1000 = 19 ∧ zoomLevel 1000000 = 9 := by
  refine ⟨fun _ => rfl, fun v => ?_, zoomLevel_1000, zoomLevel_1000000⟩
  simp [isZoomAbove15]

/-! ### Refresh-cycle behaviour -/

/-- C4: when the computed zoom level is 15 or below, a refresh execution
clears all existing markers and performs no network fetch. -/
theorem below_threshold_clears_no_fetch (v : ViewerState)
    (network : Except Unit (List Place))
    (clamp : List Cartesian3 → Except Unit (List Cartesian3))
    (h : zoomLevel v.cameraHeight ≤ 15) :
    updatePlaces (some v) network clamp = (some { v with entities := [] }, false) := by
  have hz : ¬ 15 < zoomLevel v.cameraHeight := not_lt.mpr h
  simp [updatePlaces, isZoomAbove15, hz]

/-- Witness for C4: at camera height 16000 m the zoom level is 15, and the
refresh clears the one existing marker without fetching. -/
theorem below_threshold_clears_no_fetch_witness :
    zoomLevel viewerFar.cameraHeight ≤ 15 ∧
    updatePlaces (some viewerFar) (.ok [samplePlace]) (fun _ => .ok []) =
      (some { viewerFar with entities := [] }, false) := by
  have h : zoomLevel viewerFar.cameraHeight ≤ 15 := by
    show zoomLevel 16000 ≤ 15
    rw [zoomLevel_16000]
  exact ⟨h, below_threshold_clears_no_fetch viewerFar (.ok [samplePlace]) (fun _ => .ok []) h⟩

/-- C5: when the batched clamp-to-height call fails, the cycle ends with
zero markers — the previous cycle's markers are removed and none are
added, whatever the viewer held before and whatever the feature list
was. -/
theorem clamp_failure_zero_markers (v : ViewerState) (places : List Place)
    (clamp : List Cartesian3 → Except Unit (List Cartesian3))
    (h : clamp (places.map fun place =>
      Cartesian3.fromDegrees place.geometry.coordinates.1
        place.geometry.coordinates.2) = .error ()) :
    addPlaceLabels (some v) clamp places = some { v with entities := [] } := by
  simp [addPlaceLabels, h]

/-- Witness for C5: a failing clamp oracle on a one-feature list leaves the
scene empty although the previous cycle had left one marker. -/
theorem clamp_failure_zero_markers_witness :
    ((fun _ => .error ()) : List Cartesian3 → Except Unit (List Cartesian3))
        ([samplePlace].map fun place =>
          Cartesian3.fromDegrees place.geometry.coordinates.1
            place.geometry.coordinates.2) = .error () ∧
    addPlaceLabels (some viewerNoRect) (fun _ => .error ()) [samplePlace] =
      some { viewerNoRect with entities := [] } :=
  ⟨rfl, clamp_failure_zero_markers viewerNoRect [samplePlace] (fun _ => .error ()) rfl⟩

/-- C6: on a network or parse failure of the places request, the fetch
gateway returns an empty result (having issued the fetch) instead of
propagating the error, and the refresh invokes the label renderer with the
empty feature list. -/
theorem fetch_failure_empty_result (v : ViewerState) (r : ViewRectangle)
    (clamp : List Cartesian3 → Except Unit (List Cartesian3))
    (hzoom : 15 < zoomLevel v.cameraHeight) (hrect : v.viewRect = some r) :
    fetchOverturePlaces (some v) (.error ()) = ([], true) ∧
    updatePlaces (some v) (.error ()) clamp =
      (addPlaceLabels (some v) clamp [], true) := by
  have hz : isZoomAbove15 (some v) = true := by simp [isZoomAbove15, hzoom]
  constructor
  · simp [fetchOverturePlaces, getCurrentBoundingBox, hz, hrect]
  · simp [updatePlaces, fetchOverturePlaces, getCurrentBoundingBox, hz, hrect]

/-- Witness for C6: at camera height 1000 m with a view rectangle, a failed
fetch yields the empty feature list and the renderer runs on it. -/
theorem fetch_failure_empty_result_witness :
    15 < zoomLevel viewerNear.cameraHeight ∧
    viewerNear.viewRect = some rect0 ∧
    (fetchOverturePlaces (some viewerNear) (.error ()) = ([], true) ∧
      updatePlaces (some viewerNear) (.error ()) (fun _ => .ok []) =
        (addPlaceLabels (some viewerNear) (fun _ => .ok []) [], true)) := by
  have hzoom : 15 < zoomLevel viewerNear.cameraHeight := by
    show 15 < zoomLevel 1000
    rw [zoomLevel_1000]
    decide
  exact ⟨hzoom, rfl,
    fetch_failure_empty_result viewerNear rect0 (fun _ => .ok []) hzoom rfl⟩

/-- C10: before the viewer instance exists, a refresh execution is a
complete no-op — the zoom check returns `false`, no fetch is issued, and
no entity mutation occurs. -/
theorem null_viewer_refresh_noop :
    isZoomAbove15 none = false ∧
    ∀ (network : Except Unit (List Place))
      (clamp : List Cartesian3 → Except Unit (List Cartesian3)),
      updatePlaces none network clamp = (none, false) := by
  refine ⟨rfl, fun network clamp => ?_⟩
  simp [updatePlaces, isZoomAbove15]

/-- C1, counterexample: with a fetch-eligible camera whose view rectangle
cannot be computed, the refresh does NOT leave the marker set unchanged —
the marker left by the previous cycle is removed.  (`fetchOverturePlaces`
returns `[]` on a missing rectangle, but `updatePlaces` still hands that
empty list to `addPlaceLabels`, which begins with `removeAll`.) -/
theorem missing_rect_still_removes_markers :
    updatePlaces (some viewerNoRect) (.ok []) (fun _ => .ok []) =
      (some { viewerNoRect with entities := [] }, false) ∧
    viewerNoRect.entities ≠ [] := by
  constructor
  · have hz : isZoomAbove15 (some viewerNoRect) = true := by
      have : zoomLevel viewerNoRect.cameraHeight = 19 := zoomLevel_1000
      simp [isZoomAbove15, this]
    simp [updatePlaces, hz, fetchOverturePlaces, getCurrentBoundingBox,
      viewerNoRect, addPlaceLabels]
  · simp [viewerNoRect]

/-- C1, amended: if the engine cannot compute a view rectangle, the refresh
issues no fetch and adds no markers, but it does not abort before the
renderer — it clears the scene, so existing markers are removed. -/
theorem missing_rect_clears_scene (v : ViewerState)
    (network : Except Unit (List Place))
    (clamp : List Cartesian3 → Except Unit (List Cartesian3))
    (h : v.viewRect = none) :
    updatePlaces (some v) network clamp = (some { v with entities := [] }, false) := by
  by_cases hz : isZoomAbove15 (some v) = true
  · have hfetch : fetchOverturePlaces (some v) network = ([], false) := by
      simp [fetchOverturePlaces, getCurrentBoundingBox, hz, h]
    cases hclamp : clamp [] with
    | ok cl =>
      simp [updatePlaces, hz, hfetch, addPlaceLabels, hclamp]
    | error u =>
      simp [updatePlaces, hz, hfetch, addPlaceLabels, hclamp]
  · simp at hz
    simp [updatePlaces, hz]

/-- Witness for C1 (amended theorem) on the eligible, rectangle-less
viewer. -/
theorem missing_rect_clears_scene_witness :
    viewerNoRect.viewRect = none ∧
    updatePlaces (some viewerNoRect) (.ok [samplePlace]) (fun _ => .error ()) =
      (some { viewerNoRect with entities := [] }, false) :=
  ⟨rfl, missing_rect_clears_scene viewerNoRect (.ok [samplePlace])
    (fun _ => .error ()) rfl⟩

/-- C3, counterexample: for the feature `(lon=10, lat=20, name="X")` with
clamped position `sampleClamped`, the renderer adds exactly one entity
whose connector line does start at the clamped position, but the entity
`position` — where the point glyph and the label are rendered — is NOT the
clamped surface position: it is the label anchor 20 m above it. -/
theorem point_glyph_not_at_clamped_position :
    (c3Result.getD viewerNear).entities.length = 1 ∧
    ((c3Result.getD viewerNear).entities.getD 0 default).polyline.positions.getD 0 default
      = sampleClamped ∧
    ((c3Result.getD viewerNear).entities.getD 0 default).position ≠ sampleClamped := by
  have hpos : ((c3Result.getD viewerNear).entities.getD 0 default).position.height
      = 25 := by
    simp [c3Result, addPlaceLabels, placeEntity, samplePlace, sampleClamped,
      viewerNear, Cartesian3.fromRadians, Cartographic.fromCartesian,
      show List.range 1 = [0] from rfl]
    norm_num
  refine ⟨?_, ?_, ?_⟩
  · simp [c3Result, addPlaceLabels, viewerNear, samplePlace, sampleClamped,
      show List.range 1 = [0] from rfl]
  · simp [c3Result, addPlaceLabels, placeEntity, samplePlace, sampleClamped,
      viewerNear, show List.range 1 = [0] from rfl]
  · intro hcontra
    rw [hcontra] at hpos
    have h5 : sampleClamped.height = 5 := rfl
    rw [h5] at hpos
    norm_num at hpos

/-- C3, amended: the renderer processes features in input order, adding for
each feature exactly one marker entity whose `position` is the label anchor
(20 m above the clamped height, at the feature's own longitude/latitude in
radians); the label at that anchor shows `properties.names.primary`, the
connector polyline runs from the clamped surface position to the anchor,
point and label are visible within 6000 units with depth testing disabled,
and the connector within 1000 units. -/
theorem label_renderer_markers (v : ViewerState) (places : List Place)
    (clamp : List Cartesian3 → Except Unit (List Cartesian3))
    (clamped : List Cartesian3)
    (h : clamp (places.map fun place =>
      Cartesian3.fromDegrees place.geometry.coordinates.1
        place.geometry.coordinates.2) = .ok clamped) :
    ((addPlaceLabels (some v) clamp places).getD v).entities.length = places.length ∧
    ∀ i, i < places.length →
      let p := places.getD i default
      let c := clamped.getD i default
      let e := ((addPlaceLabels (some v) clamp places).getD v).entities.getD i default
      e.position = Cartesian3.fromRadians (toRadians p.geometry.coordinates.1)
        (toRadians p.geometry.coordinates.2)
        ((Cartographic.fromCartesian c).height + 20) ∧
      e.position.height = (Cartographic.fromCartesian c).height + 20 ∧
      e.label.text = p.properties.names.primary ∧
      e.polyline.positions = [c, e.position] ∧
      e.label.distanceDisplayCondition = ⟨0, 6000⟩ ∧
      e.point.distanceDisplayCondition = ⟨0, 6000⟩ ∧
      e.label.disableDepthTestDistanceInf = true ∧
      e.point.disableDepthTestDistanceInf = true ∧
      e.polyline.distanceDisplayCondition = ⟨0, 1000⟩ := by
  have hres : addPlaceLabels (some v) clamp places =
      some { v with
        entities := (List.range places.length).map (fun index =>
          placeEntity (places.getD index default)
            (clamped.getD index default)) } := by
    simp [addPlaceLabels, h]
  rw [hres]
  refine ⟨by simp, ?_⟩
  intro i hi
  have hlen : i < ((List.range places.length).map (fun index =>
      placeEntity (places.getD index default)
        (clamped.getD index default))).length := by simpa using hi
  simp only [Option.getD_some, List.getD_eq_getElem _ _ hlen,
    List.getElem_map, List.getElem_range]
  simp [placeEntity, Cartesian3.fromRadians]

/-- Witness for C3 (amended theorem) on `viewerNear`, the single feature
`samplePlace` and a clamp oracle returning `[sampleClamped]`. -/
theorem label_renderer_markers_witness :
    ((fun _ => .ok [sampleClamped]) : List Cartesian3 → Except Unit (List Cartesian3))
        ([samplePlace].map fun place =>
          Cartesian3.fromDegrees place.geometry.coordinates.1
            place.geometry.coordinates.2) = .ok [sampleClamped] ∧
    ((addPlaceLabels (some viewerNear) (fun _ => .ok [sampleClamped])
        [samplePlace]).getD viewerNear).entities.length = [samplePlace].length :=
  ⟨rfl, (label_renderer_markers viewerNear [samplePlace]
    (fun _ => .ok [sampleClamped]) [sampleClamped] rfl).1⟩

/-- C9: the viewer bootstrapper is a no-op while a viewer instance already
exists — no second engine instance, no configuration change, no extra
listener registration. -/
theorem bootstrap_reentrant_noop (cs : CompState) (fresh : ViewerState)
    (h : cs.viewer.isSome = true) : setupCesium cs fresh = cs := by
  cases hv : cs.viewer with
  | none => rw [hv] at h; simp at h
  | some v => simp [setupCesium, hv]

/-- Witness for C9: re-running the bootstrapper on a state that already
holds a viewer changes nothing. -/
theorem bootstrap_reentrant_noop_witness :
    (CompState.mk true (some viewerNear) 1).viewer.isSome = true ∧
    setupCesium (CompState.mk true (some viewerNear) 1) viewerFar =
      CompState.mk true (some viewerNear) 1 :=
  ⟨rfl, bootstrap_reentrant_noop (CompState.mk true (some viewerNear) 1)
    viewerFar rfl⟩

/-! ### Debounce behaviour -/

lemma debounce_burst_foldl (delay : ℕ) :
    ∀ (ts : List ℕ) (t : ℕ) (fs : List ℕ),
    List.Chain (fun a b => a ≤ b ∧ b < a + delay) t ts →
    List.foldl (debStep delay) ⟨some (t + delay), fs⟩ (ts.map DebAction.ev) =
      ⟨some (ts.getLastD t + delay), fs⟩ := by
  intro ts
  induction ts with
  | nil => intro t fs _; rfl
  | cons t' ts' ih =>
    intro t fs hchain
    rcases hchain with _ | ⟨⟨_, hlt⟩, hchain'⟩
    have hstep : debStep delay ⟨some (t + delay), fs⟩ (DebAction.ev t') =
        ⟨some (t' + delay), fs⟩ := by
      have : ¬ t + delay ≤ t' := not_le.mpr hlt
      simp [debStep, debFlush, this]
    simp only [List.map_cons, List.foldl_cons, hstep, List.getLastD_cons]
    exact ih t' fs hchain'

/-- C7: a burst of camera-movement-ended events in which each event arrives
within 300 ms of the previous one produces exactly one execution of the
debounced refresh, scheduled 300 ms after the last event of the burst;
the earlier triggers of the burst are discarded, not queued. -/
theorem debounce_burst_single_fire (t : ℕ) (ts : List ℕ)
    (h : List.Chain (fun a b => a ≤ b ∧ b < a + 300) t ts) :
    debFires 300 ((t :: ts).map DebAction.ev) = [ts.getLastD t + 300] := by
  have h0 : debStep 300 ⟨none, []⟩ (DebAction.ev t) = ⟨some (t + 300), []⟩ := by
    simp [debStep, debFlush]
  simp only [debFires, debRun, List.map_cons, List.foldl_cons, h0,
    debounce_burst_foldl 300 ts t [] h]
  rfl

/-- Witness for C7: the burst `0, 100, 250` (each gap under 300 ms) fires
exactly once, at `550`. -/
theorem debounce_burst_single_fire_witness :
    List.Chain (fun a b => a ≤ b ∧ b < a + 300) 0 [100, 250] ∧
    debFires 300 ([0, 100, 250].map DebAction.ev) = [250 + 300] := by
  have h : List.Chain (fun a b => a ≤ b ∧ b < a + 300) 0 [100, 250] :=
    List.Chain.cons ⟨by omega, by omega⟩
      (List.Chain.cons ⟨by omega, by omega⟩ List.Chain.nil)
  exact ⟨h, debounce_burst_single_fire 0 [100, 250] h⟩

lemma debFlush_fires_bounded (s : DebState) (t c : ℕ)
    (hs : ∀ f ∈ s.fires, f ≤ c) (ht : t ≤ c) :
    ∀ f ∈ (debFlush s t).fires, f ≤ c := by
  unfold debFlush
  cases hp : s.pending with
  | none => exact hs
  | some g =>
    by_cases hg : g ≤ t
    · simp only [hg, if_true]
      intro f hf
      rcases List.mem_append.mp hf with hf | hf
      · exact hs f hf
      · simp at hf
        omega
    · simp only [hg, if_false]
      exact hs

lemma debounce_fires_bounded (c : ℕ) :
    ∀ (acts : List DebAction) (s : DebState),
    (∀ f ∈ s.fires, f ≤ c) → (∀ a ∈ acts, a.time ≤ c) →
    ∀ f ∈ (List.foldl (debStep 300) s acts).fires, f ≤ c := by
  intro acts
  induction acts with
  | nil => intro s hs _; exact hs
  | cons a as ih =>
    intro s hs hacts
    have ha : a.time ≤ c := hacts a (List.mem_cons_self a as)
    have has : ∀ b ∈ as, DebAction.time b ≤ c :=
      fun b hb => hacts b (List.mem_cons_of_mem a hb)
    have hstepfires : ∀ f ∈ (debStep 300 s a).fires, f ≤ c := by
      cases a with
      | ev t => exact debFlush_fires_bounded s t c hs ha
      | cancel t => exact debFlush_fires_bounded s t c hs ha
    simpa using ih (debStep 300 s a) hstepfires has

/-- C8: when the teardown cleanup cancels the debounced refresh at time
`c`, after all triggers (which all happened by `c`), no pending execution
remains and every execution that ever fired did so at or before `c` — no
refresh, and hence no marker mutation, occurs after teardown. -/
theorem teardown_cancels_pending (es : List ℕ) (c : ℕ)
    (h : ∀ t ∈ es, t ≤ c) :
    (debRun 300 (es.map DebAction.ev ++ [DebAction.cancel c])).pending = none ∧
    ∀ f ∈ debFires 300 (es.map DebAction.ev ++ [DebAction.cancel c]), f ≤ c := by
  have hacts : ∀ a ∈ es.map DebAction.ev, DebAction.time a ≤ c := by
    intro a ha
    rcases List.mem_map.mp ha with ⟨t, ht, rfl⟩
    exact h t ht
  have hsplit : debRun 300 (es.map DebAction.ev ++ [DebAction.cancel c]) =
      debStep 300 (debRun 300 (es.map DebAction.ev)) (DebAction.cancel c) := by
    simp [debRun, List.foldl_append]
  have hmid : ∀ f ∈ (debRun 300 (es.map DebAction.ev)).fires, f ≤ c :=
    debounce_fires_bounded c (es.map DebAction.ev) ⟨none, []⟩ (by simp) hacts
  have hfinal : ∀ f ∈ (debStep 300 (debRun 300 (es.map DebAction.ev))
      (DebAction.cancel c)).fires, f ≤ c := by
    simpa [debStep] using
      debFlush_fires_bounded (debRun 300 (es.map DebAction.ev)) c c hmid le_rfl
  constructor
  · rw [hsplit]
    rfl
  · intro f hf
    rw [debFires, hsplit] at hf
    simp only [debStep] at hf ⊢
    rcases List.mem_append.mp hf with hf | hf
    · exact hfinal f (by simpa [debStep] using hf)
    · simp [Option.toList] at hf


/-- Witness for C8: one trigger at `0`, teardown at `100` — the execution
scheduled for `300` is cancelled: nothing is pending and nothing fires
after `100` (in fact nothing fires at all). -/
theorem teardown_cancels_pending_witness :
    (∀ t ∈ [0], t ≤ 100) ∧
    (debRun 300 ([0].map DebAction.ev ++ [DebAction.cancel 100])).pending = none ∧
    ∀ f ∈ debFires 300 ([0].map DebAction.ev ++ [DebAction.cancel 100]), f ≤ 100 := by
  have h : ∀ t ∈ [0], t ≤ 100 := by decide
  exact ⟨h, teardown_cancels_pending [0] 100 h⟩

end ThreeDMap
